import Mathlib

/-!
Shallow embedding of the stunne STUN library (crates stunne-protocol and
stunne-diagnostics) in Lean 4, for checking the natural-language
specification against the code.

Bytes are modelled as `Nat` values (an on-wire byte is a value `< 256`);
byte buffers are `List Nat`.  Machine-integer casts are made explicit
(`% 65536` models Rust's `as u16`).  Fallible Rust functions return
`Except`/`Option`; a Rust panic is modelled as `Option.none`.
-/

deriving instance DecidableEq for Except

namespace Stunne

/-- Big-endian byte pair of a `u16` value (Rust `u16::to_be_bytes`). -/
def u16ToBeBytes (v : Nat) : List Nat := [v / 256 % 256, v % 256]

/-- `u16::from_be_bytes` on a big-endian byte pair. -/
def u16FromBeBytes (hi lo : Nat) : Nat := hi * 256 + lo

/-- `MessageClass` from stunne-protocol/src/lib.rs. -/
inductive MessageClass
  | request
  | indication
  | successResponse
  | errorResponse
deriving DecidableEq

/-- `MessageDecodeError` from stunne-protocol/src/errors.rs.  Note the enum has
exactly these five variants; in particular there is no variant about a
disagreement between the header length field and the buffer size. -/
inductive MessageDecodeError
  | nonZeroStartingBits
  | invalidMagicCookie
  | invalidMessageClass
  | invalidMessageMethod
  | unexpectedEndOfData
deriving DecidableEq

/-- `impl From<MessageClass> for u16` (lib.rs). -/
def MessageClass.toU16 : MessageClass → Nat
  | .request => 0b00
  | .indication => 0b01
  | .successResponse => 0b10
  | .errorResponse => 0b11

/-- `impl TryFrom<u16> for MessageClass` (lib.rs). -/
def MessageClass.tryFromU16 (value : Nat) : Except MessageDecodeError MessageClass :=
  match value with
  | 0 => .ok .request
  | 1 => .ok .indication
  | 2 => .ok .successResponse
  | 3 => .ok .errorResponse
  | _ => .error .invalidMessageClass

/-- `MessageMethod` (lib.rs): a newtype over `u16`. -/
structure MessageMethod where
  val : Nat
deriving DecidableEq

/-- `MessageMethod::try_from_u16` (lib.rs): valid iff the value fits in 12 bits. -/
def MessageMethod.tryFromU16 (value : Nat) : Except MessageDecodeError MessageMethod :=
  if value ≤ 4095 then .ok ⟨value⟩ else .error .invalidMessageMethod

/-- The `final_value` accumulated by `encode_message_type` (utils.rs): the
source's `final_value +=` steps summed in order. -/
def messageTypeValue (cls : MessageClass) (method_value : Nat) : Nat :=
  ((cls.toU16 &&& 0b10) <<< 7) + ((cls.toU16 &&& 0b01) <<< 4)
    + ((method_value &&& 0b0000111110000000) <<< 2)
    + ((method_value &&& 0b0000000001110000) <<< 1)
    + (method_value &&& 0b0000000000001111)

/-- `encode_message_type` from stunne-protocol/src/utils.rs: interleave the
2-bit class and 12-bit method into the 16-bit type field, returned as its two
big-endian bytes.  The total stays below 2^16 so `u16` addition never
wraps. -/
def encode_message_type (cls : MessageClass) (method : MessageMethod) : List Nat :=
  u16ToBeBytes (messageTypeValue cls method.val)

/-- The `class_value` sum computed by `decode_message_type` (utils.rs). -/
def classValueOf (type_value : Nat) : Nat :=
  ((type_value &&& 0b0000000100000000) >>> 7)
    + ((type_value &&& 0b0000000000010000) >>> 4)

/-- The `method_value` sum computed by `decode_message_type` (utils.rs). -/
def methodValueOf (type_value : Nat) : Nat :=
  ((type_value &&& 0b0011111000000000) >>> 2)
    + ((type_value &&& 0b0000000011100000) >>> 1)
    + (type_value &&& 0b0000000000001111)

/-- `decode_message_type` from utils.rs: the inverse bit interleave of
`encode_message_type`, taking the two big-endian bytes of the type field. -/
def decode_message_type (b0 b1 : Nat) : Except MessageDecodeError (MessageClass × MessageMethod) :=
  let type_value := u16FromBeBytes b0 b1
  do
    let cls ← MessageClass.tryFromU16 (classValueOf type_value)
    let method ← MessageMethod.tryFromU16 (methodValueOf type_value)
    return (cls, method)

set_option maxHeartbeats 4000000 in
set_option maxRecDepth 4000 in
/-- Exhaustive check of the bit interleave on the numeric level, with the
12-bit method split as `64 * a + b` to keep the bounded-quantifier recursion
shallow. -/
lemma typeValue_decode_aux (cls : MessageClass) : ∀ a < 64, ∀ b < 64,
    classValueOf (messageTypeValue cls (64 * a + b)) = cls.toU16
      ∧ methodValueOf (messageTypeValue cls (64 * a + b)) = 64 * a + b := by
  cases cls <;> decide

/-- The 16-bit type value never exceeds `u16` range. -/
lemma messageTypeValue_lt (cls : MessageClass) (m : Nat) :
    messageTypeValue cls m < 65536 := by
  unfold messageTypeValue
  have c2 : cls.toU16 &&& 0b10 ≤ 0b10 := Nat.and_le_right
  have c1 : cls.toU16 &&& 0b01 ≤ 0b01 := Nat.and_le_right
  have m1 : m &&& 0b0000111110000000 ≤ 0b0000111110000000 := Nat.and_le_right
  have m2 : m &&& 0b0000000001110000 ≤ 0b0000000001110000 := Nat.and_le_right
  have m3 : m &&& 0b0000000000001111 ≤ 0b0000000000001111 := Nat.and_le_right
  simp only [Nat.shiftLeft_eq]
  norm_num at *
  omega

/-- `MessageClass::try_from` is a left inverse of `From<MessageClass>`. -/
lemma tryFromU16_toU16 (cls : MessageClass) :
    MessageClass.tryFromU16 cls.toU16 = .ok cls := by
  cases cls <;> rfl

/-- `TransactionId` (lib.rs): a 12-byte identifier. -/
structure TransactionId where
  bytes : List Nat
deriving DecidableEq

/-- `TransactionId::from_bytes` (lib.rs): `buf.copy_from_slice(&bytes[0..12])`
copies the first 12 bytes; the slice `bytes[0..12]` panics when fewer than 12
bytes are given, modelled as `none`. -/
def TransactionId.from_bytes (bytes : List Nat) : Option TransactionId :=
  if 12 ≤ bytes.length then some ⟨bytes.take 12⟩ else none

/-- `MAGIC_COOKIE` (lib.rs): the fixed bytes 0x21 0x12 0xA4 0x42. -/
def MAGIC_COOKIE : List Nat := [0x21, 0x12, 0xA4, 0x42]

/-- `STUN_HEADER_BYTES` (lib.rs). -/
def STUN_HEADER_BYTES : Nat := 20

/-- `MessageHeader` (header.rs).  The Rust field `class` is a Lean keyword and
is named `cls` here. -/
structure MessageHeader where
  cls : MessageClass
  method : MessageMethod
  tx_id : TransactionId
deriving DecidableEq

/-- `MessageHeader::encode_with_length` (header.rs): type field, length field,
magic cookie, transaction id. -/
def MessageHeader.encode_with_length (h : MessageHeader) (data_length : Nat) : List Nat :=
  encode_message_type h.cls h.method ++ u16ToBeBytes data_length ++ MAGIC_COOKIE ++ h.tx_id.bytes

/-- `MessageHeader::decode_with_length` (header.rs) on a 20-byte buffer.
The source takes `&[u8; 20]`, so `TransactionId::from_bytes(&buf[8..20])`
cannot panic; the `none` arm below stands for that unreachable panic. -/
def MessageHeader.decode_with_length (buf : List Nat) :
    Except MessageDecodeError (MessageHeader × Nat) :=
  if buf.getD 0 0 &&& 0b11000000 ≠ 0 then .error .nonZeroStartingBits
  else if (buf.drop 4).take 4 ≠ MAGIC_COOKIE then .error .invalidMagicCookie
  else do
    let (cls, method) ← decode_message_type (buf.getD 0 0) (buf.getD 1 0)
    let length := u16FromBeBytes (buf.getD 2 0) (buf.getD 3 0)
    match TransactionId.from_bytes ((buf.drop 8).take 12) with
    | some tx_id => .ok (⟨cls, method, tx_id⟩, length)
    | none => .error .unexpectedEndOfData

/-- `StunAttribute` (attributes.rs): a type tag and the value bytes. -/
structure StunAttribute where
  attribute_type : Nat
  data : List Nat
deriving DecidableEq

/-- `StunAttributeError` (attributes.rs): the iterator's only error. -/
inductive StunAttributeError
  | unexpectedEndOfBytes
deriving DecidableEq

/-- `ATTRIBUTE_TYPE_LENGTH_BYTES` (attributes.rs). -/
def ATTRIBUTE_TYPE_LENGTH_BYTES : Nat := 4

/-- One call of `StunAttributeIterator::next` (attributes.rs), as a function
from the iterator's `data` slice to the yielded item and the updated slice.
Both error arms set the slice to `self.data[0..0]`, i.e. empty.  Note the
advance on success is `ATTRIBUTE_TYPE_LENGTH_BYTES + length` — the value
length from the TLV header, with no padding skip. -/
def StunAttributeIterator.next (data : List Nat) :
    Option (Except StunAttributeError StunAttribute) × List Nat :=
  if data.length = 0 then (none, data)
  else if data.length < ATTRIBUTE_TYPE_LENGTH_BYTES then
    (some (.error .unexpectedEndOfBytes), [])
  else
    let attribute_type := u16FromBeBytes (data.getD 0 0) (data.getD 1 0)
    let length := u16FromBeBytes (data.getD 2 0) (data.getD 3 0)
    let next_attribute_byte := ATTRIBUTE_TYPE_LENGTH_BYTES + length
    if data.length < next_attribute_byte then
      (some (.error .unexpectedEndOfBytes), [])
    else
      (some (.ok ⟨attribute_type, (data.drop ATTRIBUTE_TYPE_LENGTH_BYTES).take length⟩),
        data.drop next_attribute_byte)

/-- The iterator's `data` slice after `n` further calls to `next`. -/
def StunAttributeIterator.stateAfter (n : Nat) (data : List Nat) : List Nat :=
  match n with
  | 0 => data
  | n + 1 => StunAttributeIterator.stateAfter n (StunAttributeIterator.next data).2

/-- `padding_for_attribute_length` (utils.rs). -/
def padding_for_attribute_length (length : Nat) : Nat :=
  let extra := length % 4
  if extra ≠ 0 then 4 - extra else 0

/-- `ATTRIBUTE_HEADER_BYTES` (lib.rs). -/
def ATTRIBUTE_HEADER_BYTES : Nat := 4

/-- `StunAttributeEncoder` (lib.rs): the attribute-section buffer together with
the pending header.  `next_attribute_byte` always equals `buf.length`, so the
source's `split_off`/`unsplit` dance appends each attribute at the end of
`buf`; the embedding keeps `buf` as the whole attribute section. -/
structure StunAttributeEncoder where
  header : MessageHeader
  buf : List Nat
  next_attribute_byte : Nat
deriving DecidableEq

/-- `StunEncoder::encode_header` (lib.rs): start the attribute stage with an
empty attribute buffer. -/
def StunEncoder.encode_header (header : MessageHeader) : StunAttributeEncoder :=
  ⟨header, [], 0⟩

/-- `StunAttributeEncoder::add_attribute` (lib.rs), with the attribute value
given as the bytes its `AttributeEncoder` appends.  The TLV header is the
type and `attribute_length as u16` (= `% 65536`); the value is followed by
`padding_for_attribute_length` zero bytes (`PADDING_VALUE`). -/
def StunAttributeEncoder.add_attribute (s : StunAttributeEncoder)
    (attribute_type : Nat) (data : List Nat) : StunAttributeEncoder :=
  let attribute_length := data.length
  let padding_length := padding_for_attribute_length attribute_length
  { s with
    buf := s.buf ++ u16ToBeBytes attribute_type ++ u16ToBeBytes (attribute_length % 65536)
      ++ data ++ List.replicate padding_length 0,
    next_attribute_byte :=
      s.next_attribute_byte + ATTRIBUTE_HEADER_BYTES + attribute_length + padding_length }

/-- `StunAttributeEncoder::finish` (lib.rs): write the header with
`self.buf.len() as u16` as the length and prepend it. -/
def StunAttributeEncoder.finish (s : StunAttributeEncoder) : List Nat :=
  s.header.encode_with_length (s.buf.length % 65536) ++ s.buf

/-- `StunDecoder` (lib.rs): the decoded header and the attribute-section
slice. -/
structure StunDecoder where
  header : MessageHeader
  attribute_buf : List Nat
deriving DecidableEq

/-- `StunDecoder::new` (lib.rs): decode the first 20 bytes as the header and
keep everything after them as the attribute slice.  The length returned by
`decode_with_length` is bound to `_attribute_length` in the source and
dropped. -/
def StunDecoder.new (buf : List Nat) : Except MessageDecodeError StunDecoder :=
  if buf.length < STUN_HEADER_BYTES then .error .unexpectedEndOfData
  else
    match MessageHeader.decode_with_length (buf.take STUN_HEADER_BYTES) with
    | .error e => .error e
    | .ok (header, _attribute_length) => .ok ⟨header, buf.drop STUN_HEADER_BYTES⟩

/-- `StunDecoder::attributes` (lib.rs): the iterator starts on the stored
attribute slice. -/
def StunDecoder.attributes (d : StunDecoder) : List Nat := d.attribute_buf

/-- `std::net::IpAddr`: IPv4 or IPv6 address as its octets. -/
inductive IpAddr
  | v4 (octets : List Nat)
  | v6 (octets : List Nat)
deriving DecidableEq

/-- `std::net::SocketAddr`: an IP address and a port. -/
structure SocketAddr where
  ip : IpAddr
  port : Nat
deriving DecidableEq

/-- `MappedAddressDecodeError` (encodings/mapped_address.rs). -/
inductive MappedAddressDecodeError
  | nonZeroFirstByte
  | unknownFamily
  | unexpectedEndOfSlice
deriving DecidableEq

/-- `MAPPED_ADDRESS_HEADER_BYTES` (encodings/mapped_address.rs). -/
def MAPPED_ADDRESS_HEADER_BYTES : Nat := 4

/-- `IPV4_FAMILY` (encodings/mapped_address.rs). -/
def IPV4_FAMILY : Nat := 0x01

/-- `IPV6_FAMILY` (encodings/mapped_address.rs). -/
def IPV6_FAMILY : Nat := 0x02

/-- `MAGIC_COOKIE_MSB` (encodings/mapped_address.rs). -/
def MAGIC_COOKIE_MSB : Nat := 0x2112

/-- `MAGIC_COOKIE_FULL` (encodings/mapped_address.rs), as bytes. -/
def MAGIC_COOKIE_FULL : List Nat := [0x21, 0x12, 0xA4, 0x42]

/-- `utils::xor` (utils.rs): in-place XOR of equal-length byte arrays,
modelled as `zipWith`. -/
def xorBytes (bytes mask : List Nat) : List Nat := List.zipWith (· ^^^ ·) bytes mask

/-- `MappedAddressEncoder::encode` (encodings/mapped_address.rs): the bytes
appended for a MAPPED-ADDRESS value: zero byte, family, big-endian port,
address octets. -/
def MappedAddressEncoder.encode (addr : SocketAddr) : List Nat :=
  match addr.ip with
  | .v4 octets => 0 :: IPV4_FAMILY :: u16ToBeBytes addr.port ++ octets
  | .v6 octets => 0 :: IPV6_FAMILY :: u16ToBeBytes addr.port ++ octets

/-- The XOR masking shared by `XorMappedAddressEncoder::encode` and
`XorMappedAddressDecoder::decode` (encodings/mapped_address.rs): port XOR
0x2112; IPv4 octets XOR the cookie; IPv6 octets XOR (cookie ‖ tx_id). -/
def xorMaskAddress (addr : SocketAddr) (tx_id : TransactionId) : SocketAddr :=
  let processed_ip :=
    match addr.ip with
    | .v4 octets => IpAddr.v4 (xorBytes octets MAGIC_COOKIE_FULL)
    | .v6 octets => IpAddr.v6 (xorBytes octets (MAGIC_COOKIE_FULL ++ tx_id.bytes))
  let processed_port := addr.port ^^^ MAGIC_COOKIE_MSB
  ⟨processed_ip, processed_port⟩

/-- `XorMappedAddressEncoder::encode` (encodings/mapped_address.rs): mask the
address, then emit the MAPPED-ADDRESS layout of the masked address. -/
def XorMappedAddressEncoder.encode (addr : SocketAddr) (tx_id : TransactionId) : List Nat :=
  MappedAddressEncoder.encode (xorMaskAddress addr tx_id)

/-- `parse_mapped_address` (encodings/mapped_address.rs). -/
def parse_mapped_address (bytes : List Nat) :
    Except MappedAddressDecodeError SocketAddr :=
  if bytes.length < MAPPED_ADDRESS_HEADER_BYTES then .error .unexpectedEndOfSlice
  else
    let header_bytes := bytes.take MAPPED_ADDRESS_HEADER_BYTES
    let address_bytes := bytes.drop MAPPED_ADDRESS_HEADER_BYTES
    if header_bytes.getD 0 0 ≠ 0 then .error .nonZeroFirstByte
    else
      let port := u16FromBeBytes (header_bytes.getD 2 0) (header_bytes.getD 3 0)
      match header_bytes.getD 1 0 with
      | 0x01 =>
        if address_bytes.length ≠ 4 then .error .unexpectedEndOfSlice
        else .ok ⟨.v4 address_bytes, port⟩
      | 0x02 =>
        if address_bytes.length ≠ 16 then .error .unexpectedEndOfSlice
        else .ok ⟨.v6 address_bytes, port⟩
      | _ => .error .unknownFamily

/-- `MappedAddressDecoder::decode` (encodings/mapped_address.rs). -/
def MappedAddressDecoder.decode (buf : List Nat) :
    Except MappedAddressDecodeError SocketAddr :=
  parse_mapped_address buf

/-- `XorMappedAddressDecoder::decode` (encodings/mapped_address.rs): run the
MAPPED-ADDRESS parse, then apply the same XOR mask. -/
def XorMappedAddressDecoder.decode (tx_id : TransactionId) (buf : List Nat) :
    Except MappedAddressDecodeError SocketAddr := do
  let addr ← parse_mapped_address buf
  return xorMaskAddress addr tx_id

/-- Well-formedness of an embedded IP address: the octet list has the length
of its family. -/
def IpAddr.wellFormed : IpAddr → Prop
  | .v4 octets => octets.length = 4
  | .v6 octets => octets.length = 16

/-- `StunEvent` (stunne-diagnostics/src/sessions/mod.rs); `Instant` is
modelled as a natural number of seconds, which supports the ordering and the
`+ 3s` arithmetic the session uses. -/
inductive StunEvent
  | idle (now : Nat)
  | datagramReceived
deriving DecidableEq

/-- `AddressPortMapping` (sessions/determine_mapping.rs). -/
inductive AddressPortMapping
  | endpointIndependent
deriving DecidableEq

/-- `DetermineMappingError` (sessions/determine_mapping.rs). -/
inductive DetermineMappingError
  | unexpectedTimeout
deriving DecidableEq

/-- `DetermineMappingSession` (sessions/determine_mapping.rs). -/
inductive DetermineMappingSession
  | initial
  | firstPacketSent (timeout_at : Nat)
  | complete (result : Except DetermineMappingError AddressPortMapping)
deriving DecidableEq

/-- `OutgoingDatagrams` (sessions/determine_mapping.rs). -/
inductive OutgoingDatagrams
  | noDatagrams
  | firstAttempt
deriving DecidableEq

/-- `TIMEOUT_SECS` (sessions/determine_mapping.rs): 3 seconds. -/
def TIMEOUT_SECS : Nat := 3

/-- `DetermineMappingSession::process` (sessions/determine_mapping.rs).  The
timeout arm carries the source's guard `timeout_at < *now`; the following
arm is the guard-failed `Idle` case (`no_change`). -/
def DetermineMappingSession.process (s : DetermineMappingSession) (event : StunEvent) :
    DetermineMappingSession × OutgoingDatagrams :=
  match s, event with
  | .initial, .idle now => (.firstPacketSent (now + TIMEOUT_SECS), .firstAttempt)
  | .initial, .datagramReceived => (s, .noDatagrams)
  | .firstPacketSent timeout_at, .idle now =>
    if timeout_at < now then (.complete (.error .unexpectedTimeout), .noDatagrams)
    else (s, .noDatagrams)
  | .firstPacketSent _, .datagramReceived =>
    (.complete (.ok .endpointIndependent), .noDatagrams)
  | .complete _, _ => (s, .noDatagrams)

/-! ## Shared helper lemmas and concrete fixtures -/

/-- The header used by the concrete scenarios: Request, BINDING, transaction
id 01..0C. -/
def simpleHeader : MessageHeader :=
  ⟨.request, ⟨1⟩, ⟨[1, 2, 3, 4, 5, 6, 7, 8, 9, 10, 11, 12]⟩⟩

/-- The attribute section of scenario S2: two attributes of value lengths 5
and 6 (the crate's `encode_multiple_attributes` test vector). -/
def s2AttrBytes : List Nat :=
  [0x00, 0x00, 0x00, 0x05, 0x74, 0x65, 0x73, 0x74, 0x31, 0x00, 0x00, 0x00,
   0x00, 0x01, 0x00, 0x06, 0x74, 0x65, 0x73, 0x74, 0x30, 0x32, 0x00, 0x00]

/-- The full S2 message: header plus the two attributes, through the
encoder pipeline. -/
def s2Message : List Nat :=
  ((((StunEncoder.encode_header simpleHeader).add_attribute 0x00
      [0x74, 0x65, 0x73, 0x74, 0x31]).add_attribute 0x01
      [0x74, 0x65, 0x73, 0x74, 0x30, 0x32]).finish)

lemma next_nil : StunAttributeIterator.next [] = (none, []) := rfl

lemma next_cases (data : List Nat) :
    (StunAttributeIterator.next data).1 = none
      ∨ (StunAttributeIterator.next data).2 = []
      ∨ ∃ a, (StunAttributeIterator.next data).1 = some (.ok a) := by
  simp only [StunAttributeIterator.next]
  split
  · exact Or.inl rfl
  · split
    · exact Or.inr (Or.inl rfl)
    · split
      · exact Or.inr (Or.inl rfl)
      · exact Or.inr (Or.inr ⟨_, rfl⟩)

lemma next_error_state (data : List Nat) (e : StunAttributeError)
    (h : (StunAttributeIterator.next data).1 = some (.error e)) :
    (StunAttributeIterator.next data).2 = [] := by
  rcases next_cases data with h1 | h1 | ⟨a, h1⟩
  · rw [h1] at h
    exact absurd h (by simp)
  · exact h1
  · rw [h1] at h
    simp at h

lemma stateAfter_nil (n : Nat) : StunAttributeIterator.stateAfter n [] = [] := by
  induction n with
  | zero => rfl
  | succ n ih => simpa [StunAttributeIterator.stateAfter, next_nil] using ih

lemma xorBytes_length (l m : List Nat) : (xorBytes l m).length = min l.length m.length := by
  simp [xorBytes]

lemma xorBytes_xorBytes (l m : List Nat) (h : l.length = m.length) :
    xorBytes (xorBytes l m) m = l := by
  induction l generalizing m with
  | nil => simp [xorBytes]
  | cons a l ih =>
    cases m with
    | nil => simp at h
    | cons b m =>
      have h' : l.length = m.length := by simpa using h
      have htail := ih m h'
      simp only [xorBytes] at htail ⊢
      simp [Nat.xor_cancel_right, htail]

lemma u16_roundtrip (v : Nat) (h : v < 65536) :
    u16FromBeBytes (v / 256 % 256) (v % 256) = v := by
  unfold u16FromBeBytes
  omega

lemma parse_encode_mapped (a : SocketAddr) (hport : a.port < 65536)
    (hip : a.ip.wellFormed) :
    parse_mapped_address (MappedAddressEncoder.encode a) = .ok a := by
  obtain ⟨ip, port⟩ := a
  cases ip with
  | v4 octets =>
    have hlen : octets.length = 4 := hip
    simp only [MappedAddressEncoder.encode, u16ToBeBytes, IPV4_FAMILY, List.cons_append,
      List.nil_append]
    unfold parse_mapped_address MAPPED_ADDRESS_HEADER_BYTES
    rw [if_neg (by simp [hlen])]
    simp only [List.take_succ_cons, List.take_zero, List.drop_succ_cons, List.drop_zero,
      List.getD_cons_zero, List.getD_cons_succ]
    rw [if_neg (by simp)]
    rw [if_neg (by simp [hlen])]
    simp [u16_roundtrip port hport]
  | v6 octets =>
    have hlen : octets.length = 16 := hip
    simp only [MappedAddressEncoder.encode, u16ToBeBytes, IPV6_FAMILY, List.cons_append,
      List.nil_append]
    unfold parse_mapped_address MAPPED_ADDRESS_HEADER_BYTES
    rw [if_neg (by simp [hlen])]
    simp only [List.take_succ_cons, List.take_zero, List.drop_succ_cons, List.drop_zero,
      List.getD_cons_zero, List.getD_cons_succ]
    rw [if_neg (by simp)]
    rw [if_neg (by simp [hlen])]
    simp [u16_roundtrip port hport]

lemma xorMask_wellFormed (a : SocketAddr) (tid : TransactionId)
    (hip : a.ip.wellFormed) (htid : tid.bytes.length = 12) :
    (xorMaskAddress a tid).ip.wellFormed := by
  obtain ⟨ip, port⟩ := a
  cases ip with
  | v4 octets =>
    have hlen : octets.length = 4 := hip
    show (xorBytes octets MAGIC_COOKIE_FULL).length = 4
    simp [xorBytes_length, hlen, MAGIC_COOKIE_FULL]
  | v6 octets =>
    have hlen : octets.length = 16 := hip
    show (xorBytes octets (MAGIC_COOKIE_FULL ++ tid.bytes)).length = 16
    simp [xorBytes_length, hlen, MAGIC_COOKIE_FULL, htid]

lemma xorMask_port_lt (a : SocketAddr) (tid : TransactionId)
    (hport : a.port < 65536) : (xorMaskAddress a tid).port < 65536 := by
  have h : a.port ^^^ MAGIC_COOKIE_MSB < 2 ^ 16 := by
    refine Nat.xor_lt_two_pow (by norm_num [hport]) (by norm_num [MAGIC_COOKIE_MSB])
  simpa [xorMaskAddress] using h

lemma xorMask_involutive (a : SocketAddr) (tid : TransactionId)
    (hip : a.ip.wellFormed) (htid : tid.bytes.length = 12) :
    xorMaskAddress (xorMaskAddress a tid) tid = a := by
  obtain ⟨ip, port⟩ := a
  cases ip with
  | v4 octets =>
    have hlen : octets.length = 4 := hip
    simp [xorMaskAddress, Nat.xor_cancel_right,
      xorBytes_xorBytes octets MAGIC_COOKIE_FULL (by simp [hlen, MAGIC_COOKIE_FULL])]
  | v6 octets =>
    have hlen : octets.length = 16 := hip
    simp [xorMaskAddress, Nat.xor_cancel_right,
      xorBytes_xorBytes octets (MAGIC_COOKIE_FULL ++ tid.bytes)
        (by simp [hlen, MAGIC_COOKIE_FULL, htid])]

lemma decode_message_type_ok (b0 b1 : Nat) :
    ∃ cls method, decode_message_type b0 b1 = .ok (cls, method) := by
  unfold decode_message_type classValueOf methodValueOf
  set t := u16FromBeBytes b0 b1 with ht
  have h8 : t &&& 0b0000000100000000 = 0 ∨ t &&& 0b0000000100000000 = 256 := by
    have h := Nat.and_two_pow t 8
    norm_num at h
    rcases Bool.eq_false_or_eq_true (t.testBit 8) with hb | hb <;> rw [hb] at h <;>
      simp at h <;> omega
  have h4 : t &&& 0b0000000000010000 = 0 ∨ t &&& 0b0000000000010000 = 16 := by
    have h := Nat.and_two_pow t 4
    norm_num at h
    rcases Bool.eq_false_or_eq_true (t.testBit 4) with hb | hb <;> rw [hb] at h <;>
      simp at h <;> omega
  have hm : ((t &&& 0b0011111000000000) >>> 2) + ((t &&& 0b0000000011100000) >>> 1)
      + (t &&& 0b0000000000001111) ≤ 4095 := by
    have a1 : t &&& 0b0011111000000000 ≤ 0b0011111000000000 := Nat.and_le_right
    have a2 : t &&& 0b0000000011100000 ≤ 0b0000000011100000 := Nat.and_le_right
    have a3 : t &&& 0b0000000000001111 ≤ 0b0000000000001111 := Nat.and_le_right
    simp only [Nat.shiftRight_eq_div_pow]
    omega
  rcases h8 with h8 | h8 <;> rcases h4 with h4 | h4 <;>
    simp [h8, h4, MessageClass.tryFromU16, MessageMethod.tryFromU16, hm] <;>
    exact ⟨_, _, rfl⟩

/-! ## Claim theorems -/

/-- Claim C1 (code bug): the specification says the attribute iterator
advances past the padded value length, so that after a length-5 value the
next attribute is read at offset 4 + 4·⌈5/4⌉ = 12; the code advances only
4 + L = 9 bytes, leaving the iterator inside the padding.  Evaluated on the
S2 attribute section. -/
theorem iterator_advance_ignores_padding :
    (StunAttributeIterator.next s2AttrBytes).1
        = some (.ok ⟨0, [0x74, 0x65, 0x73, 0x74, 0x31]⟩)
      ∧ (StunAttributeIterator.next s2AttrBytes).2 = s2AttrBytes.drop 9
      ∧ (StunAttributeIterator.next s2AttrBytes).2 ≠ s2AttrBytes.drop 12 := by
  decide

/-- Claim C2 (code bug): encoding the two attributes of scenario S2 (value
lengths 5 and 6) and decoding the result does not yield the same sequence:
the encoder pads the first value to 8 bytes, but the iterator resumes right
after the 5 value bytes, yielding a spurious (type 0, empty) attribute where
the claim expects (type 1, "test02"). -/
theorem encode_decode_roundtrip_fails_on_s2 :
    s2Message.length = 44
      ∧ s2Message.drop 20 = s2AttrBytes
      ∧ (s2Message.getD 2 0) * 256 + s2Message.getD 3 0 = 24
      ∧ (StunAttributeIterator.next s2AttrBytes).1
        = some (.ok ⟨0x00, [0x74, 0x65, 0x73, 0x74, 0x31]⟩)
      ∧ (StunAttributeIterator.next (StunAttributeIterator.next s2AttrBytes).2).1
        = some (.ok ⟨0, []⟩)
      ∧ (StunAttributeIterator.next (StunAttributeIterator.next s2AttrBytes).2).1
        ≠ some (.ok ⟨0x01, [0x74, 0x65, 0x73, 0x74, 0x30, 0x32]⟩) := by
  decide

/-- Claim C3 counterexample: at `now = timeout_at` (both 0) the session does
not complete — the source guard is the strict `timeout_at < *now` — so the
claim's "now ≥ t (including now = t)" is false at this input. -/
theorem timeout_at_boundary_not_complete :
    DetermineMappingSession.process (.firstPacketSent 0) (.idle 0)
        = (.firstPacketSent 0, .noDatagrams)
      ∧ DetermineMappingSession.process (.firstPacketSent 0) (.idle 0)
        ≠ (.complete (.error .unexpectedTimeout), .noDatagrams) := by
  decide

/-- Claim C3 (corrected): for every `t` and `now` with `t < now` (strictly),
`process` on FirstPacketSent and Idle completes with Err(UnexpectedTimeout)
and no outgoing datagram. -/
theorem timeout_fires_strictly_after_deadline (t now : Nat) (h : t < now) :
    DetermineMappingSession.process (.firstPacketSent t) (.idle now)
      = (.complete (.error .unexpectedTimeout), .noDatagrams) := by
  simp [DetermineMappingSession.process, h]

/-- Witness for the corrected C3 theorem at t = 0, now = 1. -/
theorem timeout_fires_strictly_after_deadline_witness :
    (0 < 1)
      ∧ DetermineMappingSession.process (.firstPacketSent 0) (.idle 1)
        = (.complete (.error .unexpectedTimeout), .noDatagrams) :=
  ⟨by decide, timeout_fires_strictly_after_deadline 0 1 (by decide)⟩

/-- Claim C4 counterexample: `add_attribute` with a 65536-byte value raises
no error — it returns an encoder whose buffer holds the TLV header with
length field `65536 as u16 = 0` (bytes 2 and 3 of the new chunk are 0 0)
followed by the full value, i.e. the length is silently truncated. -/
theorem add_attribute_truncates_length_65536 :
    ((StunEncoder.encode_header simpleHeader).add_attribute 0
        (List.replicate 65536 0)).buf = [0, 0, 0, 0] ++ List.replicate 65536 0
      ∧ 65535 < (List.replicate 65536 (0 : Nat)).length := by
  constructor
  · show ([] : List Nat) ++ u16ToBeBytes 0
        ++ u16ToBeBytes ((List.replicate 65536 (0 : Nat)).length % 65536)
        ++ List.replicate 65536 0
        ++ List.replicate
          (padding_for_attribute_length (List.replicate 65536 (0 : Nat)).length) 0
      = [0, 0, 0, 0] ++ List.replicate 65536 0
    generalize hbig : List.replicate 65536 (0 : Nat) = big
    have hlen : big.length = 65536 := by rw [← hbig, List.length_replicate]
    rw [hlen]
    norm_num [u16ToBeBytes, padding_for_attribute_length]
  · rw [List.length_replicate]
    norm_num

/-- Claim C4 (corrected): for every attribute value longer than 65535 bytes,
`add_attribute` does not refuse — it appends the TLV chunk with the length
field holding `length % 65536`, which differs from the true length (silent
truncation).  No `InvalidDataSize` error exists in the encoder API. -/
theorem add_attribute_never_refuses (s : StunAttributeEncoder) (t : Nat)
    (data : List Nat) (h : 65535 < data.length) :
    (s.add_attribute t data).buf
        = s.buf ++ u16ToBeBytes t ++ u16ToBeBytes (data.length % 65536)
          ++ data ++ List.replicate (padding_for_attribute_length data.length) 0
      ∧ data.length % 65536 ≠ data.length := by
  refine ⟨rfl, ?_⟩
  omega

/-- Witness for the corrected C4 theorem on a 65536-byte value. -/
theorem add_attribute_never_refuses_witness :
    (65535 < (List.replicate 65536 (0 : Nat)).length)
      ∧ ((List.replicate 65536 (0 : Nat)).length % 65536
          ≠ (List.replicate 65536 (0 : Nat)).length) :=
  ⟨by rw [List.length_replicate]; norm_num,
    (add_attribute_never_refuses (StunEncoder.encode_header simpleHeader) 0
      (List.replicate 65536 0) (by rw [List.length_replicate]; norm_num)).2⟩

/-- Claim C5: XOR-MAPPED-ADDRESS decode is a left inverse of encode for every
address (IPv4 or IPv6, any port below 2^16) and every 12-byte transaction
id: the masking is self-inverse. -/
theorem xor_mapped_address_roundtrip (addr : SocketAddr) (tx_id : TransactionId)
    (hport : addr.port < 65536) (hip : addr.ip.wellFormed)
    (htid : tx_id.bytes.length = 12) :
    XorMappedAddressDecoder.decode tx_id (XorMappedAddressEncoder.encode addr tx_id)
      = .ok addr := by
  have hparse : parse_mapped_address
        (MappedAddressEncoder.encode (xorMaskAddress addr tx_id))
      = .ok (xorMaskAddress addr tx_id) :=
    parse_encode_mapped _ (xorMask_port_lt addr tx_id hport)
      (xorMask_wellFormed addr tx_id hip htid)
  unfold XorMappedAddressDecoder.decode XorMappedAddressEncoder.encode
  rw [hparse]
  show Except.ok (xorMaskAddress (xorMaskAddress addr tx_id) tx_id) = Except.ok addr
  rw [xorMask_involutive addr tx_id hip htid]

/-- Witness for C5 at 127.0.0.1:8000 with transaction id 01..0C. -/
theorem xor_mapped_address_roundtrip_witness :
    XorMappedAddressDecoder.decode ⟨[1, 2, 3, 4, 5, 6, 7, 8, 9, 10, 11, 12]⟩
        (XorMappedAddressEncoder.encode ⟨.v4 [127, 0, 0, 1], 8000⟩
          ⟨[1, 2, 3, 4, 5, 6, 7, 8, 9, 10, 11, 12]⟩)
      = .ok ⟨.v4 [127, 0, 0, 1], 8000⟩ :=
  xor_mapped_address_roundtrip ⟨.v4 [127, 0, 0, 1], 8000⟩
    ⟨[1, 2, 3, 4, 5, 6, 7, 8, 9, 10, 11, 12]⟩ (by decide)
    (show ([127, 0, 0, 1] : List Nat).length = 4 by decide) (by decide)

/-- Claim C6: for every class and every 12-bit method, decoding the two-byte
type field produced by `encode_message_type` returns the same class and
method. -/
theorem message_type_roundtrip (cls : MessageClass) (m : Nat) (hm : m < 4096) :
    decode_message_type ((encode_message_type cls ⟨m⟩).getD 0 0)
      ((encode_message_type cls ⟨m⟩).getD 1 0) = .ok (cls, ⟨m⟩) := by
  have hlt := messageTypeValue_lt cls m
  have hbytes : u16FromBeBytes ((encode_message_type cls ⟨m⟩).getD 0 0)
      ((encode_message_type cls ⟨m⟩).getD 1 0) = messageTypeValue cls m := by
    show u16FromBeBytes (messageTypeValue cls m / 256 % 256)
        (messageTypeValue cls m % 256) = messageTypeValue cls m
    exact u16_roundtrip _ hlt
  have haux := typeValue_decode_aux cls (m / 64) (by omega) (m % 64) (by omega)
  rw [Nat.div_add_mod m 64] at haux
  obtain ⟨hc, hmv⟩ := haux
  simp only [decode_message_type]
  rw [hbytes, hc, hmv, tryFromU16_toU16]
  have h2 : MessageMethod.tryFromU16 m = .ok ⟨m⟩ := by
    unfold MessageMethod.tryFromU16
    rw [if_pos (by omega)]
  rw [h2]
  rfl

/-- Witness for C6 at class ErrorResponse, method 4095. -/
theorem message_type_roundtrip_witness :
    (4095 < 4096)
      ∧ decode_message_type ((encode_message_type .errorResponse ⟨4095⟩).getD 0 0)
        ((encode_message_type .errorResponse ⟨4095⟩).getD 1 0)
        = .ok (.errorResponse, ⟨4095⟩) :=
  ⟨by decide, message_type_roundtrip .errorResponse 4095 (by decide)⟩

/-- Claim C7: on every 20-byte buffer, header decoding checks the two most
significant bits of byte 0 first (regardless of the rest, cookie included),
then the magic cookie at bytes 4..8, and otherwise decodes the type field
into a class and method (which always succeeds). -/
theorem header_decode_check_order (buf : List Nat) (hlen : buf.length = 20) :
    (buf.getD 0 0 &&& 0b11000000 ≠ 0 →
        MessageHeader.decode_with_length buf = .error .nonZeroStartingBits)
      ∧ (buf.getD 0 0 &&& 0b11000000 = 0 → (buf.drop 4).take 4 ≠ MAGIC_COOKIE →
        MessageHeader.decode_with_length buf = .error .invalidMagicCookie)
      ∧ (buf.getD 0 0 &&& 0b11000000 = 0 → (buf.drop 4).take 4 = MAGIC_COOKIE →
        ∃ cls method,
          decode_message_type (buf.getD 0 0) (buf.getD 1 0) = .ok (cls, method)
            ∧ MessageHeader.decode_with_length buf
              = .ok (⟨cls, method, ⟨(buf.drop 8).take 12⟩⟩,
                  u16FromBeBytes (buf.getD 2 0) (buf.getD 3 0))) := by
  refine ⟨fun hb => ?_, fun hb hc => ?_, fun hb hc => ?_⟩
  · unfold MessageHeader.decode_with_length
    rw [if_pos hb]
  · unfold MessageHeader.decode_with_length
    rw [if_neg (by simpa using hb), if_pos hc]
  · obtain ⟨cls, method, hcm⟩ := decode_message_type_ok (buf.getD 0 0) (buf.getD 1 0)
    refine ⟨cls, method, hcm, ?_⟩
    unfold MessageHeader.decode_with_length
    rw [if_neg (by simpa using hb), if_neg (by simpa using hc)]
    have htake : ((buf.drop 8).take 12).length = 12 := by
      simp [hlen]
    unfold TransactionId.from_bytes
    rw [if_pos (by omega)]
    simp only [List.getD_eq_getElem?_getD] at hcm ⊢
    rw [hcm]
    simp only [List.take_take, Nat.min_self]
    rfl

/-- Witness for C7: a 20-byte buffer whose byte 0 has an MSB set is rejected
with NonZeroStartingBits even though its cookie bytes are also corrupt. -/
theorem header_decode_check_order_witness :
    (([0xC0, 1, 0, 0, 9, 9, 9, 9, 0, 0, 0, 0, 0, 0, 0, 0, 0, 0, 0, 0] :
        List Nat).length = 20)
      ∧ MessageHeader.decode_with_length
          [0xC0, 1, 0, 0, 9, 9, 9, 9, 0, 0, 0, 0, 0, 0, 0, 0, 0, 0, 0, 0]
        = .error .nonZeroStartingBits :=
  ⟨by decide,
    (header_decode_check_order
      [0xC0, 1, 0, 0, 9, 9, 9, 9, 0, 0, 0, 0, 0, 0, 0, 0, 0, 0, 0, 0]
      (by decide)).1 (by decide)⟩

/-- Claim C8: the attribute iterator is poisoned after an error: once a call
yields the error, the slice is empty and every subsequent call returns
end-of-sequence. -/
theorem iterator_poisoned_after_error (data : List Nat) (e : StunAttributeError)
    (h : (StunAttributeIterator.next data).1 = some (.error e)) :
    ∀ n, (StunAttributeIterator.next
      (StunAttributeIterator.stateAfter n (StunAttributeIterator.next data).2)).1
        = none := by
  intro n
  rw [next_error_state data e h, stateAfter_nil, next_nil]

/-- Witness for C8 on the 3-byte input 00 01 00 of scenario S6: the error is
yielded once, then every later call returns none. -/
theorem iterator_poisoned_after_error_witness :
    ((StunAttributeIterator.next [0, 1, 0]).1
        = some (.error .unexpectedEndOfBytes))
      ∧ (StunAttributeIterator.next
          (StunAttributeIterator.stateAfter 0 (StunAttributeIterator.next [0, 1, 0]).2)).1
        = none
      ∧ (StunAttributeIterator.next
          (StunAttributeIterator.stateAfter 5 (StunAttributeIterator.next [0, 1, 0]).2)).1
        = none :=
  ⟨by decide,
    iterator_poisoned_after_error [0, 1, 0] .unexpectedEndOfBytes (by decide) 0,
    iterator_poisoned_after_error [0, 1, 0] .unexpectedEndOfBytes (by decide) 5⟩

/-- Claim C9: `StunDecoder::new` ignores the header's length field: whenever
the first 20 bytes decode to a valid header, construction succeeds — whatever
the decoded length `len` is and however many bytes follow — and the attribute
slice is everything after byte 20. -/
theorem decoder_ignores_length_field (buf : List Nat) (h : MessageHeader)
    (len : Nat) (hbuf : 20 ≤ buf.length)
    (hdec : MessageHeader.decode_with_length (buf.take 20) = .ok (h, len)) :
    StunDecoder.new buf = .ok ⟨h, buf.drop 20⟩ := by
  unfold StunDecoder.new STUN_HEADER_BYTES
  rw [if_neg (by omega), hdec]

/-- Witness for C9: a 21-byte message whose header states length 5 but is
followed by a single byte still decodes, with that byte as the attribute
slice. -/
theorem decoder_ignores_length_field_witness :
    StunDecoder.new
        [0, 1, 0, 5, 0x21, 0x12, 0xA4, 0x42, 1, 2, 3, 4, 5, 6, 7, 8, 9, 10, 11, 12, 99]
      = .ok ⟨⟨.request, ⟨1⟩, ⟨[1, 2, 3, 4, 5, 6, 7, 8, 9, 10, 11, 12]⟩⟩, [99]⟩ :=
  decoder_ignores_length_field
    [0, 1, 0, 5, 0x21, 0x12, 0xA4, 0x42, 1, 2, 3, 4, 5, 6, 7, 8, 9, 10, 11, 12, 99]
    ⟨.request, ⟨1⟩, ⟨[1, 2, 3, 4, 5, 6, 7, 8, 9, 10, 11, 12]⟩⟩ 5
    (by decide) (by decide)

/-- Claim C10: `TransactionId::from_bytes` panics (modelled `none`) below 12
bytes; with at least 12 bytes it copies exactly the first 12, and equality of
the resulting ids is bytewise equality of those first 12 bytes. -/
theorem transaction_id_from_bytes_spec (b1 b2 : List Nat)
    (h1 : 12 ≤ b1.length) (h2 : 12 ≤ b2.length) :
    TransactionId.from_bytes b1 = some ⟨b1.take 12⟩
      ∧ (TransactionId.from_bytes b1 = TransactionId.from_bytes b2
          ↔ b1.take 12 = b2.take 12)
      ∧ (∀ b : List Nat, b.length < 12 → TransactionId.from_bytes b = none) := by
  refine ⟨?_, ?_, fun b hb => ?_⟩
  · unfold TransactionId.from_bytes
    rw [if_pos h1]
  · unfold TransactionId.from_bytes
    rw [if_pos h1, if_pos h2]
    simp [TransactionId.mk.injEq]
  · unfold TransactionId.from_bytes
    rw [if_neg (by omega)]

/-- Witness for C10 on a 13-byte slice: the 13th byte is ignored. -/
theorem transaction_id_from_bytes_spec_witness :
    (12 ≤ ([1, 2, 3, 4, 5, 6, 7, 8, 9, 10, 11, 12, 13] : List Nat).length)
      ∧ TransactionId.from_bytes [1, 2, 3, 4, 5, 6, 7, 8, 9, 10, 11, 12, 13]
        = some ⟨[1, 2, 3, 4, 5, 6, 7, 8, 9, 10, 11, 12]⟩ :=
  ⟨by decide,
    (transaction_id_from_bytes_spec [1, 2, 3, 4, 5, 6, 7, 8, 9, 10, 11, 12, 13]
      [1, 2, 3, 4, 5, 6, 7, 8, 9, 10, 11, 12, 13] (by decide) (by decide)).1⟩

end Stunne
